import Mathlib

/-!
A verification development for the volunteer-management server of this
repository (schema in `shared/schema.ts`, in-memory store in
`server/storage.ts`, database-backed store in `server/databaseStorage.ts`,
HTTP layer in `server/routes.ts`).

Modelling conventions of the shallow embedding:

- JS numbers used as ids and as millisecond timestamps are modelled as `Nat`
  (every id is a positive serial, every date handled by the app is after the
  epoch).
- A nullable or optional JS field is modelled with `Option`; `none` stands for
  an absent (`undefined`) field or a SQL `NULL`.  For the `checkedIn` column
  the embedding keeps the distinction between the boolean value `false`
  (`some false`) and an absent or `NULL` value (`none`), because JS keeps it:
  `undefined` is falsy but is not the value `false`.
- Every `new Date()` call is modelled by an explicit `now : Nat` argument,
  the clock value at the moment of the call.
- A JS `Map` is modelled as an association list in insertion order;
  `Map.prototype.set` replaces in place when the key exists and appends
  otherwise, and `Map.prototype.values` iterates in that order.
- A SQL table is modelled as a list of rows in insertion order together with
  the next value of its serial id column.
-/

namespace Sfitfvolt

/-- A stored user row (`shared/schema.ts`, table `users`). -/
structure User where
  id : Nat
  username : String
  password : String
deriving DecidableEq

/-- A stored event row (`shared/schema.ts`, table `events`). -/
structure Event where
  id : Nat
  name : String
  date : String
  time : String
  location : String
deriving DecidableEq

/-- A stored volunteer row (`shared/schema.ts`, table `volunteers`); also the
value type of the `MemStorage.volunteers` map.  `checkInTime` is a nullable
timestamp, `checkedIn` a nullable boolean with column default `false`. -/
structure Volunteer where
  id : Nat
  name : String
  email : String
  phone : Option String
  role : Option String
  team : Option String
  shirtSize : Option String
  dietaryNeeds : Option String
  eventId : Nat
  checkedIn : Option Bool
  checkInTime : Option Nat
  checkedInBy : Option String
deriving DecidableEq

/-- The insert shape for volunteers (`insertVolunteerSchema` in
`shared/schema.ts`): `name`, `email` and `eventId` are required, every other
field is optional; `none` models a field that was omitted (or passed as a
null value). -/
structure InsertVolunteer where
  name : String
  email : String
  phone : Option String := none
  role : Option String := none
  team : Option String := none
  shirtSize : Option String := none
  dietaryNeeds : Option String := none
  eventId : Nat
  checkedIn : Option Bool := none
  checkInTime : Option Nat := none
  checkedInBy : Option String := none
deriving DecidableEq

/-- A JS object holding a subset of the insertable volunteer fields, as taken
by `updateVolunteer`.  The outer `Option` marks whether the key is present in
the object: `none` means the key is absent, so a merge keeps the old value. -/
structure VolunteerPatch where
  name : Option String := none
  email : Option String := none
  phone : Option (Option String) := none
  role : Option (Option String) := none
  team : Option (Option String) := none
  shirtSize : Option (Option String) := none
  dietaryNeeds : Option (Option String) := none
  eventId : Option Nat := none
  checkedIn : Option (Option Bool) := none
  checkInTime : Option (Option Nat) := none
  checkedInBy : Option (Option String) := none
deriving DecidableEq

/-- Merging a patch into a stored volunteer: the JS object spread in
`MemStorage.updateVolunteer` (`server/storage.ts` line 200) and the drizzle
`SET` clause in `DatabaseStorage.updateVolunteer` (`server/databaseStorage.ts`
lines 113 to 121).  Keys present in the patch overwrite the stored value,
absent keys keep it; `id` is not an insertable field and is never touched. -/
def applyPatch (v : Volunteer) (p : VolunteerPatch) : Volunteer where
  id := v.id
  name := p.name.getD v.name
  email := p.email.getD v.email
  phone := p.phone.getD v.phone
  role := p.role.getD v.role
  team := p.team.getD v.team
  shirtSize := p.shirtSize.getD v.shirtSize
  dietaryNeeds := p.dietaryNeeds.getD v.dietaryNeeds
  eventId := p.eventId.getD v.eventId
  checkedIn := p.checkedIn.getD v.checkedIn
  checkInTime := p.checkInTime.getD v.checkInTime
  checkedInBy := p.checkedInBy.getD v.checkedInBy

/-- Lookup in a JS `Map` modelled as an association list: the value of the
first entry carrying the key (a `Map` holds at most one entry per key). -/
def mapGet (m : List (Nat × α)) (k : Nat) : Option α :=
  match m with
  | [] => none
  | p :: m => if p.1 == k then some p.2 else mapGet m k

/-- `Map.prototype.set`: replace in place when the key exists, append
otherwise. -/
def mapSet (m : List (Nat × α)) (k : Nat) (v : α) : List (Nat × α) :=
  if m.any (fun p => p.1 == k) then
    m.map (fun p => if p.1 == k then (k, v) else p)
  else
    m ++ [(k, v)]

/-- The in-memory store `MemStorage` (`server/storage.ts` lines 27 to 227):
one JS `Map` per entity plus the next-id counters.  The `users` and `events`
maps are not read by any operation verified below and are carried unchanged. -/
structure MemStorage where
  users : List (Nat × User)
  events : List (Nat × Event)
  volunteers : List (Nat × Volunteer)
  userId : Nat
  eventId : Nat
  volunteerId : Nat
deriving DecidableEq

/-- A `MemStorage` as set up by the constructor before `initializeDemoData`
runs: empty maps, all counters at 1. -/
def MemStorage.empty : MemStorage where
  users := []
  events := []
  volunteers := []
  userId := 1
  eventId := 1
  volunteerId := 1

/-- `MemStorage.getVolunteers` (`server/storage.ts` lines 179 to 183):
the values of the `volunteers` map filtered by `eventId`. -/
def MemStorage.getVolunteers (st : MemStorage) (eventId : Nat) : List Volunteer :=
  (st.volunteers.map (fun p => p.2)).filter (fun v => v.eventId == eventId)

/-- `MemStorage.getVolunteer` (lines 185 to 187). -/
def MemStorage.getVolunteer (st : MemStorage) (id : Nat) : Option Volunteer :=
  mapGet st.volunteers id

/-- `MemStorage.createVolunteer` (lines 189 to 194): takes the next id, stores
the spread of the insert object together with the id, and returns the stored
record.  No field of the insert object is defaulted or modified. -/
def MemStorage.createVolunteer (st : MemStorage) (ins : InsertVolunteer) :
    MemStorage × Volunteer :=
  let id := st.volunteerId
  let v : Volunteer :=
    { id := id, name := ins.name, email := ins.email, phone := ins.phone,
      role := ins.role, team := ins.team, shirtSize := ins.shirtSize,
      dietaryNeeds := ins.dietaryNeeds, eventId := ins.eventId,
      checkedIn := ins.checkedIn, checkInTime := ins.checkInTime,
      checkedInBy := ins.checkedInBy }
  ({ st with volunteers := mapSet st.volunteers id v, volunteerId := id + 1 }, v)

/-- `MemStorage.updateVolunteer` (lines 196 to 203): merge the patch into the
stored record if the id exists, else report the absence. -/
def MemStorage.updateVolunteer (st : MemStorage) (id : Nat) (p : VolunteerPatch) :
    MemStorage × Option Volunteer :=
  match mapGet st.volunteers id with
  | none => (st, none)
  | some v =>
      let v' := applyPatch v p
      ({ st with volunteers := mapSet st.volunteers id v' }, some v')

/-- `MemStorage.checkInVolunteer` (lines 205 to 217): one spread writes all
three check-in fields; `now` is the value of `new Date()` at the call. -/
def MemStorage.checkInVolunteer (st : MemStorage) (now : Nat) (id : Nat)
    (checkedInBy : String) : MemStorage × Option Volunteer :=
  match mapGet st.volunteers id with
  | none => (st, none)
  | some v =>
      let v' := { v with checkedIn := some true, checkInTime := some now,
                         checkedInBy := some checkedInBy }
      ({ st with volunteers := mapSet st.volunteers id v' }, some v')

/-- The record returned by `getEventStats`. -/
structure EventStats where
  total : Nat
  checkedIn : Nat
  pending : Nat
deriving DecidableEq

/-- `MemStorage.getEventStats` (lines 219 to 226).  The JS filter
`v => v.checkedIn` keeps the records whose nullable `checkedIn` value is
truthy, that is equal to `true`; `getD false` expresses that truthiness. -/
def MemStorage.getEventStats (st : MemStorage) (eventId : Nat) : EventStats :=
  let vs := st.getVolunteers eventId
  let total := vs.length
  let checkedIn := (vs.filter (fun v => v.checkedIn.getD false)).length
  { total := total, checkedIn := checkedIn, pending := total - checkedIn }

/-- A stored shift row (`shared/schema.ts`, table `shifts`).  `shiftDate` is
the stored date value as read back into a JS `Date`, modelled by its
millisecond timestamp. -/
structure Shift where
  id : Nat
  eventId : Nat
  shiftDate : Nat
  startTime : String
  endTime : String
  title : String
  description : Option String
  maxVolunteers : Option Nat
deriving DecidableEq

/-- The database-backed store `DatabaseStorage`
(`server/databaseStorage.ts`): each table is a list of rows in insertion
order plus its serial id counter.  The `users` and `events` tables are not
read by any operation verified below and are omitted from the state. -/
structure DatabaseStorage where
  volunteers : List Volunteer
  shifts : List Shift
  nextVolunteerId : Nat
  nextShiftId : Nat
deriving DecidableEq

/-- `DatabaseStorage.getVolunteers`: select the volunteers of one event. -/
def DatabaseStorage.getVolunteers (db : DatabaseStorage) (eventId : Nat) : List Volunteer :=
  db.volunteers.filter (fun v => v.eventId == eventId)

/-- `DatabaseStorage.getVolunteer`: select one volunteer by id. -/
def DatabaseStorage.getVolunteer (db : DatabaseStorage) (id : Nat) : Option Volunteer :=
  db.volunteers.find? (fun v => v.id == id)

/-- `DatabaseStorage.createVolunteer`: insert returning the stored row.  The
database applies the column defaults of the schema to omitted columns:
`checked_in` defaults to `false`; `check_in_time` and `checked_in_by` have no
default and become `NULL`. -/
def DatabaseStorage.createVolunteer (db : DatabaseStorage) (ins : InsertVolunteer) :
    DatabaseStorage × Volunteer :=
  let v : Volunteer :=
    { id := db.nextVolunteerId, name := ins.name, email := ins.email,
      phone := ins.phone, role := ins.role, team := ins.team,
      shirtSize := ins.shirtSize, dietaryNeeds := ins.dietaryNeeds,
      eventId := ins.eventId, checkedIn := some (ins.checkedIn.getD false),
      checkInTime := ins.checkInTime, checkedInBy := ins.checkedInBy }
  ({ db with volunteers := db.volunteers ++ [v],
             nextVolunteerId := db.nextVolunteerId + 1 }, v)

/-- `DatabaseStorage.updateVolunteer` (`server/databaseStorage.ts` lines 113
to 121): `UPDATE ... SET ... WHERE id = $1 RETURNING *`.  Every row matching
the primary key receives the present patch fields; the updated row is
returned, or `undefined` when no row matched (in which case the table is
unchanged). -/
def DatabaseStorage.updateVolunteer (db : DatabaseStorage) (id : Nat) (p : VolunteerPatch) :
    DatabaseStorage × Option Volunteer :=
  match db.volunteers.find? (fun v => v.id == id) with
  | none => (db, none)
  | some v =>
      ({ db with volunteers :=
           db.volunteers.map (fun w => if w.id == id then applyPatch w p else w) },
       some (applyPatch v p))

/-- `DatabaseStorage.checkInVolunteer` (lines 123 to 129): a call to
`updateVolunteer` carrying the three check-in fields; `now` is the value of
`new Date()` at the call. -/
def DatabaseStorage.checkInVolunteer (db : DatabaseStorage) (now : Nat) (id : Nat)
    (checkedInBy : String) : DatabaseStorage × Option Volunteer :=
  db.updateVolunteer id
    { checkedIn := some (some true), checkInTime := some (some now),
      checkedInBy := some (some checkedInBy) }

/-- `DatabaseStorage.getEventStats` (lines 131 to 138): the same computation
as the in-memory variant, over the selected rows. -/
def DatabaseStorage.getEventStats (db : DatabaseStorage) (eventId : Nat) : EventStats :=
  let vs := db.getVolunteers eventId
  let total := vs.length
  let checkedIn := (vs.filter (fun v => v.checkedIn.getD false)).length
  { total := total, checkedIn := checkedIn, pending := total - checkedIn }

/-- `DatabaseStorage.getShifts`: select the shifts of one event. -/
def DatabaseStorage.getShifts (db : DatabaseStorage) (eventId : Nat) : List Shift :=
  db.shifts.filter (fun s => s.eventId == eventId)

/-- Milliseconds per day. -/
def msPerDay : Nat := 86400000

/-- The UTC day index of a millisecond timestamp.  Two timestamps have the
same `isoDay` exactly when `toISOString` prints them with the same leading
`YYYY-MM-DD` part, which is the comparison `getShiftsByDate` performs. -/
def isoDay (t : Nat) : Nat := t / msPerDay

/-- `DatabaseStorage.getShiftsByDate` (`server/databaseStorage.ts` lines 254
to 269): format the requested date at day granularity, select the shifts of
the event, and keep those whose stored `shiftDate` formats to the same day. -/
def DatabaseStorage.getShiftsByDate (db : DatabaseStorage) (eventId : Nat) (d : Nat) :
    List Shift :=
  let formattedDate := isoDay d
  let allShifts := db.shifts.filter (fun s => s.eventId == eventId)
  allShifts.filter (fun s => isoDay s.shiftDate == formattedDate)

/-- The comparator of the shift listing endpoint
(`server/routes.ts` lines 128 to 134): ascending `getTime()` value of
`shiftDate`; on ties, the result of `startTime.localeCompare`, modelled as
codepoint-lexicographic order on the character lists of the two strings. -/
def shiftLe (a b : Shift) : Prop :=
  a.shiftDate < b.shiftDate ∨
    (a.shiftDate = b.shiftDate ∧ a.startTime.data ≤ b.startTime.data)

instance : DecidableRel shiftLe := fun a b =>
  inferInstanceAs (Decidable (a.shiftDate < b.shiftDate ∨
    (a.shiftDate = b.shiftDate ∧ a.startTime.data ≤ b.startTime.data)))

instance : IsTotal Shift shiftLe where
  total := by
    intro a b
    unfold shiftLe
    rcases Nat.lt_trichotomy a.shiftDate b.shiftDate with h | h | h
    · exact Or.inl (Or.inl h)
    · rcases le_total a.startTime.data b.startTime.data with hs | hs
      · exact Or.inl (Or.inr ⟨h, hs⟩)
      · exact Or.inr (Or.inr ⟨h.symm, hs⟩)
    · exact Or.inr (Or.inl h)

instance : IsTrans Shift shiftLe where
  trans := by
    intro a b c hab hbc
    unfold shiftLe at hab hbc ⊢
    rcases hab with h1 | ⟨e1, s1⟩
    · rcases hbc with h2 | ⟨e2, _⟩
      · exact Or.inl (h1.trans h2)
      · exact Or.inl (e2 ▸ h1)
    · rcases hbc with h2 | ⟨e2, s2⟩
      · exact Or.inl (e1 ▸ h2)
      · exact Or.inr ⟨e1.trans e2, s1.trans s2⟩

/-- The in-place `Array.prototype.sort` call of the shift listing endpoint.
JS `sort` is stable, so it is modelled by a stable insertion sort with the
same comparator. -/
def sortShifts (l : List Shift) : List Shift :=
  List.insertionSort shiftLe l

/-- The response body of `GET /api/events/:eventId/shifts`
(`server/routes.ts` lines 122 to 141): the shifts of the event, sorted. -/
def listShiftsResponse (db : DatabaseStorage) (eventId : Nat) : List Shift :=
  sortShifts (db.getShifts eventId)

/-- A stored role row (`shared/schema.ts` variant with roles, table
`roles`). -/
structure Role where
  id : Nat
  eventId : Nat
  name : String
  description : Option String
deriving DecidableEq

/-- A stored row of the `shift_roles` join table. -/
structure ShiftRole where
  id : Nat
  shiftId : Nat
  roleId : Nat
deriving DecidableEq

/-- Modelled from the spec: the storage implementation behind the role and
shift-role endpoints of `server/routes.ts` is not among the source files
(only its HTTP callers and the table schema are).  Spec section 4.1 gives its
state: the `roles` and `shift_roles` tables, each with a serial id. -/
structure RoleStorage where
  roles : List Role
  shiftRoles : List ShiftRole
  nextShiftRoleId : Nat
deriving DecidableEq

/-- Modelled from the spec: `assignRoleToShift(shiftId, roleId)` is missing
from the source files; per spec section 4.1 it looks up an existing
`ShiftRole` row for the pair first; if found, it returns it unchanged;
otherwise it inserts a new row and returns it.  Called by
`POST /api/shift-roles` (`server/routes.ts` lines 338 to 356). -/
def RoleStorage.assignRoleToShift (st : RoleStorage) (shiftId roleId : Nat) :
    RoleStorage × ShiftRole :=
  match st.shiftRoles.find? (fun sr => sr.shiftId == shiftId && sr.roleId == roleId) with
  | some sr => (st, sr)
  | none =>
      let sr : ShiftRole := { id := st.nextShiftRoleId, shiftId := shiftId, roleId := roleId }
      ({ st with shiftRoles := st.shiftRoles ++ [sr],
                 nextShiftRoleId := st.nextShiftRoleId + 1 }, sr)

/-- Modelled from the spec: `getShiftRoles(shiftId)` is missing from the
source files; per spec section 4.1 it joins the full `Role` record into each
`ShiftRole` row referencing the shift and omits rows whose role no longer
exists. -/
def RoleStorage.getShiftRoles (st : RoleStorage) (shiftId : Nat) : List (ShiftRole × Role) :=
  (st.shiftRoles.filter (fun sr => sr.shiftId == shiftId)).filterMap
    (fun sr => (st.roles.find? (fun role => role.id == sr.roleId)).map
      (fun role => (sr, role)))

/-- Modelled from the spec: `deleteRole(id)` is missing from the source
files; per spec section 4.1 it deletes all `ShiftRole` rows referencing the
role, then deletes the role, and returns whether the role itself was
deleted.  Called by `DELETE /api/roles/:id` (`server/routes.ts` lines 304 to
324). -/
def RoleStorage.deleteRole (st : RoleStorage) (roleId : Nat) : RoleStorage × Bool :=
  let st1 := { st with shiftRoles := st.shiftRoles.filter (fun sr => !(sr.roleId == roleId)) }
  if st1.roles.any (fun role => role.id == roleId) then
    ({ st1 with roles := st1.roles.filter (fun role => !(role.id == roleId)) }, true)
  else
    (st1, false)

/-- The check-in consistency invariant of the data model (spec section 3):
a volunteer that carries the boolean value `false` in `checkedIn` has no
check-in time and no checker recorded. -/
def checkInInvariant (v : Volunteer) : Prop :=
  v.checkedIn = some false → v.checkInTime = none ∧ v.checkedInBy = none

instance (v : Volunteer) : Decidable (checkInInvariant v) :=
  inferInstanceAs (Decidable
    (v.checkedIn = some false → v.checkInTime = none ∧ v.checkedInBy = none))

/-- A concrete volunteer that has not been checked in. -/
def volAlice : Volunteer :=
  { id := 1, name := "Alice", email := "alice@example.com", phone := none,
    role := none, team := none, shirtSize := none, dietaryNeeds := none,
    eventId := 1, checkedIn := some false, checkInTime := none,
    checkedInBy := none }

/-- A concrete volunteer that is already checked in. -/
def volBob : Volunteer :=
  { id := 1, name := "Bob", email := "bob@example.com", phone := none,
    role := none, team := none, shirtSize := none, dietaryNeeds := none,
    eventId := 1, checkedIn := some true, checkInTime := some 3,
    checkedInBy := some "Earlier Admin" }

/-- A concrete in-memory store holding `volAlice` under id 1. -/
def memFixture : MemStorage :=
  { MemStorage.empty with volunteers := [(1, volAlice)], volunteerId := 2 }

/-- A concrete database store holding `volAlice`. -/
def dbFixture : DatabaseStorage :=
  { volunteers := [volAlice], shifts := [], nextVolunteerId := 2, nextShiftId := 1 }

/-- A concrete in-memory store holding the already checked-in `volBob`. -/
def memFixtureCheckedIn : MemStorage :=
  { MemStorage.empty with volunteers := [(1, volBob)], volunteerId := 2 }

/-- A concrete database store holding the already checked-in `volBob`. -/
def dbFixtureCheckedIn : DatabaseStorage :=
  { volunteers := [volBob], shifts := [], nextVolunteerId := 2, nextShiftId := 1 }

/-- A concrete shift starting at the label `9:00 AM`. -/
def shiftNineAm : Shift :=
  { id := 1, eventId := 1, shiftDate := 1714521600000, startTime := "9:00 AM",
    endTime := "12:00 PM", title := "Setup", description := none,
    maxVolunteers := some 0 }

/-- A concrete shift on the same date starting at the label `10:00 AM`,
chronologically later than `shiftNineAm`. -/
def shiftTenAm : Shift :=
  { id := 2, eventId := 1, shiftDate := 1714521600000, startTime := "10:00 AM",
    endTime := "1:00 PM", title := "Front desk", description := none,
    maxVolunteers := some 0 }

/-- A concrete store of roles and shift-role rows: one role assigned to two
shifts. -/
def roleFixture : RoleStorage :=
  { roles := [{ id := 1, eventId := 1, name := "Greeter", description := none }],
    shiftRoles := [{ id := 1, shiftId := 1, roleId := 1 },
                   { id := 2, shiftId := 2, roleId := 1 }],
    nextShiftRoleId := 3 }

/-- A concrete database store holding the two sample shifts. -/
def dbShiftsFixture : DatabaseStorage :=
  { volunteers := [], shifts := [shiftNineAm, shiftTenAm],
    nextVolunteerId := 1, nextShiftId := 3 }

theorem mapGet_map_replace (m : List (Nat × α)) (k : Nat) (v : α)
    (h : m.any (fun p => p.1 == k) = true) :
    mapGet (m.map (fun p => if p.1 == k then (k, v) else p)) k = some v := by
  induction m with
  | nil => cases h
  | cons p m ih =>
    rw [List.any_cons, Bool.or_eq_true] at h
    by_cases hp : (p.1 == k) = true
    · rw [List.map_cons, if_pos hp]
      simp [mapGet]
    · have hp' : (p.1 == k) = false := by simpa using hp
      rw [List.map_cons, if_neg hp]
      rcases h with h | h
      · rw [hp'] at h; cases h
      · simp only [mapGet, hp', Bool.false_eq_true, if_false]
        exact ih h

theorem mapGet_map_replace_ne (m : List (Nat × α)) (k j : Nat) (v : α) (hj : j ≠ k) :
    mapGet (m.map (fun p => if p.1 == k then (k, v) else p)) j = mapGet m j := by
  induction m with
  | nil => rfl
  | cons p m ih =>
    by_cases hp : (p.1 == k) = true
    · have hp' : p.1 = k := by simpa using hp
      have h1 : (k == j) = false := beq_eq_false_iff_ne.mpr (fun hkj => hj hkj.symm)
      have h2 : (p.1 == j) = false := by rw [hp']; exact h1
      rw [List.map_cons, if_pos hp]
      simp only [mapGet, h1, h2, Bool.false_eq_true, if_false]
      exact ih
    · have hp' : (p.1 == k) = false := by simpa using hp
      rw [List.map_cons, if_neg hp]
      by_cases hq : (p.1 == j) = true
      · simp only [mapGet, hq, if_true]
      · have hq' : (p.1 == j) = false := by simpa using hq
        simp only [mapGet, hq', Bool.false_eq_true, if_false]
        exact ih

theorem mapGet_mapSet_self (m : List (Nat × α)) (k : Nat) (v : α) :
    mapGet (mapSet m k v) k = some v := by
  unfold mapSet
  by_cases h : m.any (fun p => p.1 == k) = true
  · rw [if_pos h]; exact mapGet_map_replace m k v h
  · rw [if_neg h]
    induction m with
    | nil => simp [mapGet]
    | cons p m ih =>
      have h' : (p.1 == k) = false ∧ m.any (fun q => q.1 == k) = false := by
        rw [Bool.not_eq_true, List.any_cons, Bool.or_eq_false_iff] at h
        exact h
      simp only [List.cons_append, mapGet, h'.1, Bool.false_eq_true, if_false]
      exact ih (by simp [h'.2])

theorem mapGet_mapSet_ne (m : List (Nat × α)) (k j : Nat) (v : α) (hj : j ≠ k) :
    mapGet (mapSet m k v) j = mapGet m j := by
  unfold mapSet
  by_cases h : m.any (fun p => p.1 == k) = true
  · rw [if_pos h]; exact mapGet_map_replace_ne m k j v hj
  · rw [if_neg h]
    have h1 : (k == j) = false := beq_eq_false_iff_ne.mpr (fun hkj => hj hkj.symm)
    induction m with
    | nil => simp [mapGet, h1]
    | cons p m ih =>
      by_cases hq : (p.1 == j) = true
      · simp only [List.cons_append, mapGet, hq, if_true]
      · have hq' : (p.1 == j) = false := by simpa using hq
        simp only [List.cons_append, mapGet, hq', Bool.false_eq_true, if_false]
        exact ih (by
          intro hc
          apply h
          rw [List.any_cons, Bool.or_eq_true]
          exact Or.inr hc)

theorem find?_patch_ne (rows : List Volunteer) (k j : Nat) (p : VolunteerPatch)
    (hj : j ≠ k) :
    (rows.map (fun w => if w.id == k then applyPatch w p else w)).find?
        (fun w => w.id == j)
      = rows.find? (fun w => w.id == j) := by
  induction rows with
  | nil => rfl
  | cons w rows ih =>
    by_cases hw : (w.id == k) = true
    · have hw' : w.id = k := by simpa using hw
      have h1 : ((applyPatch w p).id == j) = false := by
        have he : (applyPatch w p).id = w.id := rfl
        simp only [he, hw', beq_eq_false_iff_ne]
        exact fun hkj => hj hkj.symm
      have h2 : (w.id == j) = false := by
        simp only [hw', beq_eq_false_iff_ne]
        exact fun hkj => hj hkj.symm
      rw [List.map_cons, if_pos hw]
      simp only [List.find?, h1, h2]
      exact ih
    · rw [List.map_cons, if_neg hw]
      by_cases hq : (w.id == j) = true
      · simp only [List.find?, hq]
      · have hq' : (w.id == j) = false := by simpa using hq
        simp only [List.find?, hq']
        exact ih

theorem checkedIn_filter_eq (l : List Volunteer) (e : Nat) :
    ((l.filter (fun v => v.eventId == e)).filter
        (fun v => v.checkedIn.getD false)).length
      = (l.filter (fun v => v.eventId == e && v.checkedIn == some true)).length := by
  rw [List.filter_filter]
  congr 1
  apply List.filter_congr
  intro v _
  cases hc : v.checkedIn with
  | none => simp [hc]
  | some b => cases b <;> simp [hc, Bool.and_comm]

/-- Claim C2: for every volunteer id that exists in the store (in-memory or
database variant) and every checker string, `checkInVolunteer` returns the
updated volunteer whose `checkedIn` is `true`, whose `checkInTime` is the
clock value of the call (hence a timestamp at least the time of the call),
and whose `checkedInBy` equals the given string; all three fields are
written by the same single update of the store. -/
theorem checkInVolunteer_sets_fields
    (st : MemStorage) (db : DatabaseStorage) (now vid : Nat) (who : String)
    (v w : Volunteer)
    (hmem : mapGet st.volunteers vid = some v)
    (hdb : db.volunteers.find? (fun x => x.id == vid) = some w) :
    (st.checkInVolunteer now vid who).2 =
      some { v with checkedIn := some true, checkInTime := some now,
                    checkedInBy := some who }
    ∧ (db.checkInVolunteer now vid who).2 =
      some { w with checkedIn := some true, checkInTime := some now,
                    checkedInBy := some who } := by
  constructor
  · unfold MemStorage.checkInVolunteer
    rw [hmem]
  · unfold DatabaseStorage.checkInVolunteer DatabaseStorage.updateVolunteer
    rw [hdb]
    rfl

/-- Witness for claim C2 at a concrete store holding one volunteer. -/
theorem checkInVolunteer_sets_fields_witness :
    mapGet memFixture.volunteers 1 = some volAlice
    ∧ dbFixture.volunteers.find? (fun x => x.id == 1) = some volAlice
    ∧ (memFixture.checkInVolunteer 5 1 "Admin").2 =
        some { volAlice with checkedIn := some true, checkInTime := some 5,
                             checkedInBy := some "Admin" }
    ∧ (dbFixture.checkInVolunteer 5 1 "Admin").2 =
        some { volAlice with checkedIn := some true, checkInTime := some 5,
                             checkedInBy := some "Admin" } := by
  have h := checkInVolunteer_sets_fields memFixture dbFixture 5 1 "Admin"
    volAlice volAlice rfl rfl
  exact ⟨rfl, rfl, h.1, h.2⟩

/-- Claim C3: for every volunteer id absent from the store, both variants of
`checkInVolunteer` return the not-found sentinel (an absent value, not a
thrown error) and leave the entire store unchanged. -/
theorem checkInVolunteer_missing_id
    (st : MemStorage) (db : DatabaseStorage) (now vid : Nat) (who : String)
    (hmem : mapGet st.volunteers vid = none)
    (hdb : db.volunteers.find? (fun x => x.id == vid) = none) :
    st.checkInVolunteer now vid who = (st, none)
    ∧ db.checkInVolunteer now vid who = (db, none) := by
  constructor
  · unfold MemStorage.checkInVolunteer
    rw [hmem]
  · unfold DatabaseStorage.checkInVolunteer DatabaseStorage.updateVolunteer
    rw [hdb]

/-- Witness for claim C3 at a concrete store and an id it does not hold. -/
theorem checkInVolunteer_missing_id_witness :
    mapGet memFixture.volunteers 7 = none
    ∧ dbFixture.volunteers.find? (fun x => x.id == 7) = none
    ∧ memFixture.checkInVolunteer 5 7 "Admin" = (memFixture, none)
    ∧ dbFixture.checkInVolunteer 5 7 "Admin" = (dbFixture, none) := by
  have h := checkInVolunteer_missing_id memFixture dbFixture 5 7 "Admin" rfl rfl
  exact ⟨rfl, rfl, h.1, h.2⟩

/-- Claim C10: for every volunteer id present in the store,
`checkInVolunteer` succeeds even when the volunteer is already checked in
(the prior state `v` is arbitrary and is never inspected), overwriting the
previously recorded `checkInTime` and `checkedInBy` with the new call values;
only the three check-in fields of the targeted record change (the returned
record is a field update of `v`), and every other volunteer id resolves to
the same record as before. -/
theorem checkInVolunteer_repeat_and_frame
    (st : MemStorage) (db : DatabaseStorage) (now vid : Nat) (who : String)
    (v w : Volunteer)
    (hmem : mapGet st.volunteers vid = some v)
    (hdb : db.volunteers.find? (fun x => x.id == vid) = some w) :
    (st.checkInVolunteer now vid who).2 =
        some { v with checkedIn := some true, checkInTime := some now,
                      checkedInBy := some who }
    ∧ (st.checkInVolunteer now vid who).1.volunteers =
        mapSet st.volunteers vid
          { v with checkedIn := some true, checkInTime := some now,
                   checkedInBy := some who }
    ∧ (st.checkInVolunteer now vid who).1.users = st.users
    ∧ (st.checkInVolunteer now vid who).1.events = st.events
    ∧ (st.checkInVolunteer now vid who).1.volunteerId = st.volunteerId
    ∧ (∀ j, j ≠ vid →
        mapGet (st.checkInVolunteer now vid who).1.volunteers j
          = mapGet st.volunteers j)
    ∧ (db.checkInVolunteer now vid who).2 =
        some { w with checkedIn := some true, checkInTime := some now,
                      checkedInBy := some who }
    ∧ (∀ j, j ≠ vid →
        (db.checkInVolunteer now vid who).1.volunteers.find? (fun x => x.id == j)
          = db.volunteers.find? (fun x => x.id == j)) := by
  have hm : st.checkInVolunteer now vid who =
      ({ st with volunteers := mapSet st.volunteers vid ({ v with
            checkedIn := some true,
            checkInTime := some now,
            checkedInBy := some who }) },
       some ({ v with
            checkedIn := some true,
            checkInTime := some now,
            checkedInBy := some who })) := by
    unfold MemStorage.checkInVolunteer
    rw [hmem]
  have hd : db.checkInVolunteer now vid who =
      ({ db with volunteers := db.volunteers.map (fun x =>
            if x.id == vid then
              applyPatch x ({
                checkedIn := some (some true),
                checkInTime := some (some now),
                checkedInBy := some (some who) })
            else x) },
       some (applyPatch w ({
            checkedIn := some (some true),
            checkInTime := some (some now),
            checkedInBy := some (some who) }))) := by
    unfold DatabaseStorage.checkInVolunteer DatabaseStorage.updateVolunteer
    rw [hdb]
  refine ⟨?_, ?_, ?_, ?_, ?_, ?_, ?_, ?_⟩
  · rw [hm]
  · rw [hm]
  · rw [hm]
  · rw [hm]
  · rw [hm]
  · intro j hj
    rw [hm]
    exact mapGet_mapSet_ne st.volunteers vid j _ hj
  · rw [hd]
    rfl
  · intro j hj
    rw [hd]
    exact find?_patch_ne db.volunteers vid j _ hj

/-- Witness for claim C10: a second check-in of an already checked-in
volunteer overwrites the recorded time and checker. -/
theorem checkInVolunteer_repeat_and_frame_witness :
    volBob.checkedIn = some true
    ∧ mapGet memFixtureCheckedIn.volunteers 1 = some volBob
    ∧ dbFixtureCheckedIn.volunteers.find? (fun x => x.id == 1) = some volBob
    ∧ (memFixtureCheckedIn.checkInVolunteer 9 1 "Second Admin").2 =
        some { volBob with checkedIn := some true, checkInTime := some 9,
                           checkedInBy := some "Second Admin" }
    ∧ (dbFixtureCheckedIn.checkInVolunteer 9 1 "Second Admin").2 =
        some { volBob with checkedIn := some true, checkInTime := some 9,
                           checkedInBy := some "Second Admin" } := by
  have h := checkInVolunteer_repeat_and_frame memFixtureCheckedIn dbFixtureCheckedIn
    9 1 "Second Admin" volBob volBob rfl rfl
  exact ⟨rfl, rfl, rfl, h.1, h.2.2.2.2.2.2.1⟩

/-- Claim C1: `getEventStats` returns the number of volunteers of the event,
the number of those whose `checkedIn` is `true`, and
`pending = total - checkedIn`; for an event without volunteers it returns
zeroes.  Both storage variants are covered. -/
theorem getEventStats_spec (st : MemStorage) (db : DatabaseStorage) (e : Nat) :
    (st.getEventStats e).total
        = ((st.volunteers.map (fun p => p.2)).filter (fun v => v.eventId == e)).length
    ∧ (st.getEventStats e).checkedIn
        = ((st.volunteers.map (fun p => p.2)).filter
            (fun v => v.eventId == e && v.checkedIn == some true)).length
    ∧ (st.getEventStats e).pending
        = (st.getEventStats e).total - (st.getEventStats e).checkedIn
    ∧ (st.getVolunteers e = [] → st.getEventStats e = ⟨0, 0, 0⟩)
    ∧ (db.getEventStats e).total
        = (db.volunteers.filter (fun v => v.eventId == e)).length
    ∧ (db.getEventStats e).checkedIn
        = (db.volunteers.filter
            (fun v => v.eventId == e && v.checkedIn == some true)).length
    ∧ (db.getEventStats e).pending
        = (db.getEventStats e).total - (db.getEventStats e).checkedIn
    ∧ (db.getVolunteers e = [] → db.getEventStats e = ⟨0, 0, 0⟩) := by
  refine ⟨rfl, ?_, rfl, ?_, rfl, ?_, rfl, ?_⟩
  · exact checkedIn_filter_eq (st.volunteers.map (fun p => p.2)) e
  · intro h
    simp [MemStorage.getEventStats, h]
  · exact checkedIn_filter_eq db.volunteers e
  · intro h
    simp [DatabaseStorage.getEventStats, h]

/-- Witness for claim C1: the zero-volunteer case at a concrete store. -/
theorem getEventStats_spec_witness :
    memFixture.getVolunteers 2 = []
    ∧ memFixture.getEventStats 2 = ⟨0, 0, 0⟩
    ∧ dbFixture.getVolunteers 2 = []
    ∧ dbFixture.getEventStats 2 = ⟨0, 0, 0⟩ :=
  ⟨rfl, (getEventStats_spec memFixture dbFixture 2).2.2.2.1 rfl, rfl,
   (getEventStats_spec memFixture dbFixture 2).2.2.2.2.2.2.2 rfl⟩

/-- Counterexample to claim C4 as stated: the invariant that
`checkedIn = false` implies null `checkInTime` and `checkedInBy` is not
preserved by every write operation.  A volunteer created and checked in
through the storage operations and then updated with the partial data
`checkedIn := false` keeps its old `checkInTime` and `checkedInBy`; and
`createVolunteer` stores explicit check-in fields verbatim, so an insert with
`checkedIn = false` and a non-null `checkInTime` also violates the
invariant. -/
theorem checkInInvariant_counterexample :
    (((MemStorage.empty.createVolunteer ({
            name := "Carol", email := "carol@example.com",
            eventId := 1 })).1.checkInVolunteer
          5 1 "Admin").1.updateVolunteer 1
          ({ checkedIn := some (some false) })).2 =
        some ({
          id := 1, name := "Carol", email := "carol@example.com", phone := none,
          role := none, team := none, shirtSize := none, dietaryNeeds := none,
          eventId := 1, checkedIn := some false, checkInTime := some 5,
          checkedInBy := some "Admin" })
    ∧ ¬ checkInInvariant ({
          id := 1, name := "Carol", email := "carol@example.com", phone := none,
          role := none, team := none, shirtSize := none, dietaryNeeds := none,
          eventId := 1, checkedIn := some false, checkInTime := some 5,
          checkedInBy := some "Admin" })
    ∧ (MemStorage.empty.createVolunteer ({
          name := "Dave", email := "dave@example.com", eventId := 1,
          checkedIn := some false, checkInTime := some 3,
          checkedInBy := some "Admin" })).2.checkedIn
        = some false
    ∧ ¬ checkInInvariant (MemStorage.empty.createVolunteer ({
          name := "Dave", email := "dave@example.com", eventId := 1,
          checkedIn := some false, checkInTime := some 3,
          checkedInBy := some "Admin" })).2 := by
  refine ⟨rfl, by decide, rfl, by decide⟩

/-- Claim C4 (amended): the check-in invariant holds for every stored record
after `checkInVolunteer` (which writes all three fields in one update), and
after `createVolunteer` whenever the three check-in fields are omitted from
the insert; `updateVolunteer` with arbitrary partial data and
`createVolunteer` with explicit check-in fields need not preserve it. -/
theorem checkInInvariant_preserved_amended
    (st : MemStorage) (now vid : Nat) (who : String) (ins : InsertVolunteer)
    (hinv : ∀ j u, mapGet st.volunteers j = some u → checkInInvariant u)
    (hci : ins.checkedIn = none) (_hct : ins.checkInTime = none)
    (_hcb : ins.checkedInBy = none) :
    (∀ j u, mapGet (st.checkInVolunteer now vid who).1.volunteers j = some u →
        checkInInvariant u)
    ∧ (∀ j u, mapGet (st.createVolunteer ins).1.volunteers j = some u →
        checkInInvariant u) := by
  constructor
  · intro j u hu
    cases hv : mapGet st.volunteers vid with
    | none =>
        rw [show (st.checkInVolunteer now vid who).1 = st by
          unfold MemStorage.checkInVolunteer; rw [hv]] at hu
        exact hinv j u hu
    | some v =>
        have hst : (st.checkInVolunteer now vid who).1 =
            { st with volunteers := mapSet st.volunteers vid ({ v with
                checkedIn := some true,
                checkInTime := some now,
                checkedInBy := some who }) } := by
          unfold MemStorage.checkInVolunteer
          rw [hv]
        rw [hst] at hu
        by_cases hj : j = vid
        · subst hj
          rw [mapGet_mapSet_self] at hu
          injection hu with h
          subst h
          intro hfalse
          simp at hfalse
        · rw [mapGet_mapSet_ne _ _ _ _ hj] at hu
          exact hinv j u hu
  · intro j u hu
    have hst : (st.createVolunteer ins).1 =
        { st with
          volunteers := mapSet st.volunteers st.volunteerId ({
            id := st.volunteerId, name := ins.name, email := ins.email,
            phone := ins.phone, role := ins.role, team := ins.team,
            shirtSize := ins.shirtSize, dietaryNeeds := ins.dietaryNeeds,
            eventId := ins.eventId, checkedIn := ins.checkedIn,
            checkInTime := ins.checkInTime,
            checkedInBy := ins.checkedInBy }),
          volunteerId := st.volunteerId + 1 } := rfl
    rw [hst] at hu
    by_cases hj : j = st.volunteerId
    · subst hj
      rw [mapGet_mapSet_self] at hu
      injection hu with h
      subst h
      intro hfalse
      have h2 : ins.checkedIn = some false := hfalse
      rw [hci] at h2
      exact Option.noConfusion h2
    · rw [mapGet_mapSet_ne _ _ _ _ hj] at hu
      exact hinv j u hu

/-- Witness for the amended claim C4 at the empty store. -/
theorem checkInInvariant_preserved_amended_witness :
    (∀ j u, mapGet MemStorage.empty.volunteers j = some u → checkInInvariant u)
    ∧ (∀ j u,
        mapGet (MemStorage.empty.checkInVolunteer 5 1 "Admin").1.volunteers j
          = some u → checkInInvariant u)
    ∧ (∀ j u,
        mapGet (MemStorage.empty.createVolunteer ({
            name := "Eve", email := "eve@example.com",
            eventId := 1 })).1.volunteers j
          = some u → checkInInvariant u) := by
  have hbase : ∀ j u, mapGet MemStorage.empty.volunteers j = some u →
      checkInInvariant u := by
    intro j u hu
    exact Option.noConfusion hu
  have h := checkInInvariant_preserved_amended MemStorage.empty 5 1 "Admin"
    ({ name := "Eve", email := "eve@example.com", eventId := 1 })
    hbase rfl rfl rfl
  exact ⟨hbase, h.1, h.2⟩

/-- Counterexample to claim C5 as stated: under the in-memory store, creating
a volunteer with `checkedIn` omitted stores the field as absent
(`undefined`), which is falsy but is not the value `false`. -/
theorem createVolunteer_default_counterexample :
    (MemStorage.empty.createVolunteer ({
        name := "Frank", email := "frank@example.com",
        eventId := 1 })).2.checkedIn = none
    ∧ ¬ (MemStorage.empty.createVolunteer ({
        name := "Frank", email := "frank@example.com",
        eventId := 1 })).2.checkedIn = some false := by
  exact ⟨rfl, by decide⟩

/-- Claim C5 (amended): creating a volunteer with the check-in fields omitted
gives, under the database store, a stored and returned record with
`checkedIn = false` (the column default) and null `checkInTime` and
`checkedInBy`; under the in-memory store the omitted `checkedIn` stays
absent (`undefined`, falsy but not the value `false`), and `checkInTime` and
`checkedInBy` stay absent as well.  In both variants the returned record is
the stored one. -/
theorem createVolunteer_omitted_defaults
    (st : MemStorage) (db : DatabaseStorage) (ins : InsertVolunteer)
    (hci : ins.checkedIn = none) (hct : ins.checkInTime = none)
    (hcb : ins.checkedInBy = none) :
    ((db.createVolunteer ins).2.checkedIn = some false
      ∧ (db.createVolunteer ins).2.checkInTime = none
      ∧ (db.createVolunteer ins).2.checkedInBy = none
      ∧ (db.createVolunteer ins).1.volunteers
          = db.volunteers ++ [(db.createVolunteer ins).2])
    ∧ ((st.createVolunteer ins).2.checkedIn = none
      ∧ (st.createVolunteer ins).2.checkInTime = none
      ∧ (st.createVolunteer ins).2.checkedInBy = none
      ∧ (st.createVolunteer ins).1.volunteers
          = mapSet st.volunteers st.volunteerId (st.createVolunteer ins).2) := by
  refine ⟨⟨?_, hct, hcb, rfl⟩, hci, hct, hcb, rfl⟩
  have h : (db.createVolunteer ins).2.checkedIn
      = some (ins.checkedIn.getD false) := rfl
  rw [h, hci]
  rfl

/-- Witness for the amended claim C5 at a concrete store and insert. -/
theorem createVolunteer_omitted_defaults_witness :
    ({
        name := "Grace", email := "grace@example.com",
        eventId := 1 } : InsertVolunteer).checkedIn = none
    ∧ (dbFixture.createVolunteer ({
        name := "Grace", email := "grace@example.com",
        eventId := 1 })).2.checkedIn = some false
    ∧ (memFixture.createVolunteer ({
        name := "Grace", email := "grace@example.com",
        eventId := 1 })).2.checkedIn = none := by
  have h := createVolunteer_omitted_defaults memFixture dbFixture
    ({ name := "Grace", email := "grace@example.com", eventId := 1 })
    rfl rfl rfl
  exact ⟨rfl, h.1.1, h.2.1⟩

/-- Claim C6 (spec-modelled storage): `assignRoleToShift` is idempotent: when
the store holds at most one `ShiftRole` row for the pair, a second call with
the same `(shiftId, roleId)` returns the same row as the first (in
particular the same id), leaves the store of the first call unchanged, and
the store holds exactly one row for the pair. -/
theorem assignRoleToShift_idempotent (st : RoleStorage) (s r : Nat)
    (h : st.shiftRoles.countP (fun sr => sr.shiftId == s && sr.roleId == r) ≤ 1) :
    ((st.assignRoleToShift s r).1.assignRoleToShift s r).2
      = (st.assignRoleToShift s r).2
    ∧ ((st.assignRoleToShift s r).1.assignRoleToShift s r).1
      = (st.assignRoleToShift s r).1
    ∧ (((st.assignRoleToShift s r).1.assignRoleToShift s r).1.shiftRoles.countP
        (fun sr => sr.shiftId == s && sr.roleId == r)) = 1 := by
  cases hf : st.shiftRoles.find? (fun sr => sr.shiftId == s && sr.roleId == r) with
  | some sr =>
      have h1 : st.assignRoleToShift s r = (st, sr) := by
        unfold RoleStorage.assignRoleToShift
        rw [hf]
      have h2 : (st.assignRoleToShift s r).1.assignRoleToShift s r = (st, sr) := by
        rw [h1]
        exact h1
      have hpos : 0 < st.shiftRoles.countP
          (fun sr => sr.shiftId == s && sr.roleId == r) :=
        List.countP_pos_iff.mpr ⟨sr, List.mem_of_find?_eq_some hf,
          List.find?_some (p := fun (sr : ShiftRole) =>
            sr.shiftId == s && sr.roleId == r) hf⟩
      refine ⟨by rw [h2, h1], by rw [h2, h1], ?_⟩
      rw [h2]
      show st.shiftRoles.countP (fun sr => sr.shiftId == s && sr.roleId == r) = 1
      omega
  | none =>
      have hcount : st.shiftRoles.countP
          (fun sr => sr.shiftId == s && sr.roleId == r) = 0 :=
        List.countP_eq_zero.mpr (by
          intro a ha
          exact fun hp => by
            have := List.find?_eq_none.mp hf a ha
            exact this hp)
      have h1 : st.assignRoleToShift s r =
          ({ st with
              shiftRoles := st.shiftRoles ++
                [{ id := st.nextShiftRoleId, shiftId := s, roleId := r }],
              nextShiftRoleId := st.nextShiftRoleId + 1 },
           { id := st.nextShiftRoleId, shiftId := s, roleId := r }) := by
        unfold RoleStorage.assignRoleToShift
        rw [hf]
      have hfind2 : (st.shiftRoles ++
            [({
              id := st.nextShiftRoleId, shiftId := s,
              roleId := r } : ShiftRole)]).find?
            (fun sr => sr.shiftId == s && sr.roleId == r)
          = some ({
              id := st.nextShiftRoleId, shiftId := s,
              roleId := r } : ShiftRole) := by
        rw [List.find?_append, hf]
        simp [List.find?]
      have h2 : (st.assignRoleToShift s r).1.assignRoleToShift s r =
          ((st.assignRoleToShift s r).1,
           { id := st.nextShiftRoleId, shiftId := s, roleId := r }) := by
        rw [h1]
        unfold RoleStorage.assignRoleToShift
        rw [hfind2]
      refine ⟨?_, ?_, ?_⟩
      · rw [h2, h1]
      · rw [h2]
      · rw [h2, h1]
        rw [List.countP_append, hcount]
        simp [List.countP, List.countP.go]

/-- Witness for claim C6 at a concrete store without the pair. -/
theorem assignRoleToShift_idempotent_witness :
    roleFixture.shiftRoles.countP (fun sr => sr.shiftId == 3 && sr.roleId == 1) ≤ 1
    ∧ (((roleFixture.assignRoleToShift 3 1).1.assignRoleToShift 3 1).2
        = (roleFixture.assignRoleToShift 3 1).2
      ∧ ((roleFixture.assignRoleToShift 3 1).1.assignRoleToShift 3 1).1
        = (roleFixture.assignRoleToShift 3 1).1
      ∧ (((roleFixture.assignRoleToShift 3 1).1.assignRoleToShift 3 1).1.shiftRoles.countP
          (fun sr => sr.shiftId == 3 && sr.roleId == 1)) = 1) :=
  ⟨by decide, assignRoleToShift_idempotent roleFixture 3 1 (by decide)⟩

/-- Claim C7 (spec-modelled storage): for a role id present in the store,
`deleteRole` removes every `ShiftRole` row referencing the role and the role
itself, reports the role as deleted, and afterwards `getShiftRoles` of any
shift no longer contains the deleted role. -/
theorem deleteRole_cascades (st : RoleStorage) (rid : Nat)
    (h : st.roles.any (fun role => role.id == rid) = true) :
    (st.deleteRole rid).2 = true
    ∧ (∀ sr ∈ (st.deleteRole rid).1.shiftRoles, ¬ sr.roleId = rid)
    ∧ (∀ role ∈ (st.deleteRole rid).1.roles, ¬ role.id = rid)
    ∧ (∀ s, ∀ pr ∈ (st.deleteRole rid).1.getShiftRoles s, ¬ pr.2.id = rid) := by
  have hd : st.deleteRole rid =
      ({ roles := st.roles.filter (fun role => !(role.id == rid)),
         shiftRoles := st.shiftRoles.filter (fun sr => !(sr.roleId == rid)),
         nextShiftRoleId := st.nextShiftRoleId }, true) := by
    unfold RoleStorage.deleteRole
    rw [if_pos h]
  refine ⟨by rw [hd], ?_, ?_, ?_⟩
  · intro sr hsr
    rw [hd] at hsr
    have := (List.mem_filter.mp hsr).2
    simpa using this
  · intro role hrole
    rw [hd] at hrole
    have := (List.mem_filter.mp hrole).2
    simpa using this
  · intro s pr hpr
    rw [hd] at hpr
    unfold RoleStorage.getShiftRoles at hpr
    rcases List.mem_filterMap.mp hpr with ⟨sr, hsr, hmap⟩
    rcases Option.map_eq_some'.mp hmap with ⟨role, hfind, hpr2⟩
    have hmem := List.mem_of_find?_eq_some hfind
    have : ¬ role.id = rid := by
      have := (List.mem_filter.mp hmem).2
      simpa using this
    rw [← hpr2]
    exact this

/-- Witness for claim C7: deleting the role assigned to two shifts empties
both join lists. -/
theorem deleteRole_cascades_witness :
    roleFixture.roles.any (fun role => role.id == 1) = true
    ∧ (roleFixture.deleteRole 1).1.getShiftRoles 1 = []
    ∧ (roleFixture.deleteRole 1).1.getShiftRoles 2 = []
    ∧ ((roleFixture.deleteRole 1).2 = true
      ∧ (∀ sr ∈ (roleFixture.deleteRole 1).1.shiftRoles, ¬ sr.roleId = 1)
      ∧ (∀ role ∈ (roleFixture.deleteRole 1).1.roles, ¬ role.id = 1)
      ∧ (∀ s, ∀ pr ∈ (roleFixture.deleteRole 1).1.getShiftRoles s,
          ¬ pr.2.id = 1)) :=
  ⟨by decide, by decide, by decide, deleteRole_cascades roleFixture 1 (by decide)⟩

/-- Claim C8: `getShiftsByDate` returns exactly the shifts of the event whose
stored `shiftDate` lies on the same UTC day as the requested date, ignoring
any time-of-day component: adding any offset below one day to a midnight
timestamp does not change its day. -/
theorem getShiftsByDate_day_granularity (db : DatabaseStorage) (e d day r : Nat)
    (hr : r < msPerDay) :
    (∀ s, s ∈ db.getShiftsByDate e d ↔
        s ∈ db.shifts ∧ s.eventId = e ∧ isoDay s.shiftDate = isoDay d)
    ∧ isoDay (day * msPerDay + r) = day := by
  constructor
  · intro s
    unfold DatabaseStorage.getShiftsByDate
    simp only [List.mem_filter, beq_iff_eq]
    tauto
  · unfold isoDay
    rw [Nat.mul_comm, Nat.mul_add_div (by decide : 0 < msPerDay),
      Nat.div_eq_of_lt hr, Nat.add_zero]

/-- Witness for claim C8 at a concrete store and a request one hour into the
shift day. -/
theorem getShiftsByDate_day_granularity_witness :
    3600000 < msPerDay
    ∧ ((∀ s, s ∈ dbShiftsFixture.getShiftsByDate 1 1714550400000 ↔
          s ∈ dbShiftsFixture.shifts ∧ s.eventId = 1
            ∧ isoDay s.shiftDate = isoDay 1714550400000)
      ∧ isoDay (19844 * msPerDay + 3600000) = 19844) :=
  ⟨by decide, getShiftsByDate_day_granularity dbShiftsFixture 1 1714550400000
    19844 3600000 (by decide)⟩

/-- Claim C9: the shift listing endpoint returns the shifts of the event
sorted ascending by `shiftDate` and, on equal dates, by string order of the
`startTime` labels — which is not chronological time-of-day order: the label
`10:00 AM` sorts before `9:00 AM`. -/
theorem shiftListing_sorted_lexicographic (db : DatabaseStorage) (e : Nat) :
    (listShiftsResponse db e).Perm (db.getShifts e)
    ∧ List.Sorted shiftLe (listShiftsResponse db e)
    ∧ sortShifts [shiftNineAm, shiftTenAm] = [shiftTenAm, shiftNineAm]
    ∧ shiftLe shiftTenAm shiftNineAm
    ∧ ¬ shiftLe shiftNineAm shiftTenAm :=
  ⟨List.perm_insertionSort shiftLe (db.getShifts e),
   List.sorted_insertionSort shiftLe (db.getShifts e),
   by decide, by decide, by decide⟩

end Sfitfvolt
